import Mathlib

/-
  Shallow embedding of the aTLS python package (opaque-systems/atls-python).

  Sources embedded:
  - src/python-package/src/pyatls/validators/az_aas_aci_validator.py
      (AzAasAciValidator.__init__ / .validate, _get_key_by_header,
       _verify_and_decode_token)
  - src/python-package/src/pyatls/attested_tls_context.py
      (AttestedTLSContext.__init__ / ._verify_certificate)
  - src/python-package/src/atls/atls_context.py
      (ATLSContext.__init__ / ._verify_certificate)

  Modelling conventions:
  - bytes are `List Nat` (byte values);
  - Python exceptions are an explicit `Except` error channel (`PyExc`);
    `except jwt.PyJWTError` corresponds to catching exactly the
    `PyExc.pyJWTError` constructor;
  - external library behavior that depends on the wire (the unverified JWT
    header of the document, the JWKS contents behind a URL, X.509/DER key
    loading, JWT signature verification + payload decoding, base64 decoding,
    SHA-256) is an environment record `AasEnv` of abstract functions; the
    repository code under test is embedded concretely on top of it;
  - network fetches (`PyJWKClient.fetch_data`) are recorded in an explicit
    trace (the list of URLs fetched), so that "no network fetch happened"
    is the statement that the trace is empty;
  - `hashlib.sha256(s.encode()).hexdigest()` is modelled as an abstract
    function `sha256hex : String -> String` (UTF-8 encoding, which is
    injective, is absorbed into the abstract hash).
-/

set_option autoImplicit false

/-- Values decoded from the JWT claim JSON (`jwt.decode` returns a parsed
JSON object). -/
inductive JsonValue where
  | str : String → JsonValue
  | bool : Bool → JsonValue
  | num : Int → JsonValue
  | null : JsonValue
  | arr : List JsonValue → JsonValue
  | obj : List (String × JsonValue) → JsonValue

/-- Python `==` between a decoded JSON value and a Python `str` literal:
equal iff the value is a string with the same characters (values of any
other type compare unequal, without raising). -/
def JsonValue.eqStr : JsonValue → String → Bool
  | JsonValue.str t, s => t = s
  | _, _ => false

/-- Python truthiness of a decoded JSON value (`if token[k]: ...`). -/
def JsonValue.truthy : JsonValue → Bool
  | JsonValue.str s => s ≠ ""
  | JsonValue.bool b => b
  | JsonValue.num n => n ≠ 0
  | JsonValue.null => false
  | JsonValue.arr l => !l.isEmpty
  | JsonValue.obj l => !l.isEmpty

/-- A decoded JWT claim set (a Python dict), as an association list with
the first binding of a key authoritative. -/
abbrev Claims := List (String × JsonValue)

/-- Python dict lookup `d[k]` / membership `k in d` on an association
list: the first binding wins. -/
def dictLookup {α : Type} : List (String × α) → String → Option α
  | [], _ => none
  | (k1, v) :: rest, k => if k1 = k then some v else dictLookup rest k

/-- Replace the value bound to `k` (at its first binding) by `v`,
leaving every other binding unchanged.  Used to state that a particular
claim's value is (partly) not examined. -/
def setClaim {α : Type} : List (String × α) → String → α → List (String × α)
  | [], _, _ => []
  | (k1, w) :: rest, k, v =>
    if k1 = k then (k1, v) :: rest else (k1, w) :: setClaim rest k v

/-- Python exceptions that the embedded code can raise or catch.
`pyJWTError` stands for `jwt.PyJWTError` and all of its subclasses (the
only class `AzAasAciValidator.validate` catches). -/
inductive PyExc where
  | pyJWTError : PyExc
  | valueError : String → PyExc
  | lookupError : String → PyExc
  | keyError : String → PyExc
  | typeError : PyExc
  | attributeError : PyExc
  | indexError : PyExc
  deriving DecidableEq, Repr

/-- An abstract decoded certificate public key (result of
`x509.load_der_x509_certificate(..).public_key()`). -/
structure PublicKey where
  keyId : Nat
  deriving DecidableEq, Repr

/-- One entry of the `keys` array of a fetched JWKS document:
`key["kid"]` and `key["x5c"]`. -/
structure JwkKey where
  kid : String
  x5c : List String

/-- Environment of external-library behavior backing one
`validate(document, ...)` call: everything the document, the network and
the crypto libraries determine.  The repository code is embedded
concretely on top of these abstract functions. -/
structure AasEnv where
  /-- `jwt.get_unverified_header(document.decode())`: the parsed JWT
  header of the document, or the exception that parsing raises
  (`jwt.DecodeError` is a `PyJWTError`; `bytes.decode` failures are a
  `UnicodeDecodeError`, i.e. a `valueError`). -/
  header : Except PyExc (List (String × String))
  /-- `jwt.PyJWKClient(url).fetch_data().get("keys", [])`: the JWKS keys
  served at a URL.  Calling it is a network fetch. -/
  fetchData : String → List JwkKey
  /-- `x509.load_der_x509_certificate(base64url_decode(c)).public_key()`. -/
  loadKey : String → Except PyExc PublicKey
  /-- `jwt.decode(token, key, [alg])`: signature verification plus payload
  decoding; raises a `PyJWTError` on any signature/format failure. -/
  decode : PublicKey → String → Except PyExc Claims
  /-- `base64.b64decode(s)`: may raise `binascii.Error` (a `valueError`)
  on bad padding. -/
  b64decode : String → Except PyExc (List Nat)
  /-- `hashlib.sha256(s.encode()).hexdigest()`. -/
  sha256hex : String → String

/-! ### base64 encoding (`base64.b64encode(..).decode()`), concrete -/

/-- The standard base64 alphabet, index 0 to 63: the uppercase letters,
the lowercase letters, the decimal digits, then plus and slash (built
from their code points). -/
def b64alphabet : List Char :=
  (List.range 26).map (fun i => Char.ofNat (65 + i)) ++
    (List.range 26).map (fun i => Char.ofNat (97 + i)) ++
    (List.range 10).map (fun i => Char.ofNat (48 + i)) ++ ['+', '/']

/-- Positional list indexing with a default (total helper). -/
def charAt : List Char → Nat → Char
  | [], _ => 'A'
  | c :: _, 0 => c
  | _ :: rest, n + 1 => charAt rest n

/-- The base64 digit for a 6-bit group. -/
def b64char (n : Nat) : Char := charAt b64alphabet n

/-- Standard base64 of a byte string, three input bytes per four output
characters, with trailing `=` padding. -/
def b64encodeGroups : List Nat → List Char
  | [] => []
  | [a] => [b64char (a / 4), b64char (a % 4 * 16), '=', '=']
  | [a, b] => [b64char (a / 4), b64char (a % 4 * 16 + b / 16),
               b64char (b % 16 * 4), '=']
  | a :: b :: c :: rest =>
      b64char (a / 4) :: b64char (a % 4 * 16 + b / 16) ::
      b64char (b % 16 * 4 + c / 64) :: b64char (c % 64) ::
      b64encodeGroups rest

/-- `base64.b64encode(bs).decode()`. -/
def b64encodeStr (bs : List Nat) : String := String.mk (b64encodeGroups bs)

/-! ### `json.dumps(..., separators=(",", ":"))` for the runtime-data dict -/

/-- Lowercase hexadecimal digit for a nibble value, from its code
point. -/
def nibbleChar (n : Nat) : Char :=
  if n < 10 then Char.ofNat (48 + n) else Char.ofNat (87 + n)

/-- JSON string escaping of one character as performed by `json.dumps`
on the ASCII range: `"` and `\` get a backslash escape, control
characters an escape sequence (Python uses two-character short forms for
some of them, and escapes non-ASCII as well; both are collapsed into the
generic branch here, which no base64 output ever reaches). -/
def jsonEscapeChar (c : Char) : List Char :=
  if c = '"' ∨ c = '\\' then ['\\', c]
  else if c.toNat < 32 then
    '\\' :: 'u' :: '0' :: '0' :: nibbleChar (c.toNat / 16) :: [nibbleChar (c.toNat % 16)]
  else [c]

/-- JSON string escaping over a character list. -/
def jsonEscapeList : List Char → List Char
  | [] => []
  | c :: rest => jsonEscapeChar c ++ jsonEscapeList rest

/-- JSON string escaping of a whole string. -/
def jsonEscapeString (s : String) : String := String.mk (jsonEscapeList s.toList)

/-- `json.dumps({"publicKey": pk, "nonce": n}, separators=(",", ":"))`:
Python dicts keep insertion order, so the keys appear in the order
`publicKey`, `nonce`, with no whitespace. -/
def jsonDumpsRuntimeData (pk n : String) : String :=
  "\x7b\"publicKey\":\"" ++ jsonEscapeString pk ++ "\",\"nonce\":\"" ++
    jsonEscapeString n ++ "\"\x7d"

/-! ### AzAasAciValidator (pyatls/validators/az_aas_aci_validator.py) -/

/-- The state an `AzAasAciValidator.__init__` leaves behind:
`self._policies` and `self._jkus` (lines 41-42). -/
structure AciValidatorState where
  policies : Option (List String)
  jkus : Option (List String)

/-- `AzAasAciValidator.__init__(policies, jkus)` (lines 34-42).  The
second component is the trace of warnings emitted during construction:
the body only stores the two allow-lists (after a base-class
`super().__init__()` that runs before either is assigned and so cannot
inspect them), so the trace is empty on every path, although the class
docstring (lines 22-31) says "a warning is issued" when either list is
absent. -/
def AzAasAciValidator_init (policies jkus : Option (List String)) :
    AciValidatorState × List String :=
  ({ policies := policies, jkus := jkus }, [])

/-- `jkus is not None and jku not in jkus` (line 194), as the allowance
predicate: `true` iff the check does not raise. -/
def jkuAllowed : Option (List String) → String → Bool
  | none, _ => true
  | some l, jku => l.contains jku

/-- The loop of `_get_key_by_header` (lines 200-205): walk the JWKS
`keys`, return the decoded `x5c[0]` public key of the first entry whose
`kid` matches, raise `LookupError` if none does. -/
def searchJwksKeys (env : AasEnv) (keys : List JwkKey) (kid : String) :
    Except PyExc PublicKey :=
  match keys with
  | [] => Except.error (PyExc.lookupError "No matching key was found in JWKS")
  | k :: rest =>
    if k.kid = kid then
      match k.x5c with
      | [] => Except.error PyExc.indexError
      | c :: _ => env.loadKey c
    else searchJwksKeys env rest kid

/-- `_get_key_by_header(header, jkus)` (lines 167-205), with the list of
JWKS URLs actually fetched as second component.  Order of effects in the
source: read `header["jku"]`, check it against the allow-list (raising
`ValueError` before any network use), read `header["kid"]`, and only
then fetch the JWKS. -/
def getKeyByHeader (env : AasEnv) (header : List (String × String))
    (jkus : Option (List String)) : Except PyExc PublicKey × List String :=
  match dictLookup header "jku" with
  | none => (Except.error (PyExc.keyError "jku"), [])
  | some jku =>
    if jkuAllowed jkus jku = false then
      (Except.error (PyExc.valueError "Untrusted JKU found in token"), [])
    else
      match dictLookup header "kid" with
      | none => (Except.error (PyExc.keyError "kid"), [])
      | some kid => (searchJwksKeys env (env.fetchData jku) kid, [jku])

/-- `_verify_and_decode_token(token, jkus)` (lines 208-230): parse the
unverified header, obtain the verification key (possibly fetching the
JWKS), then verify the signature with the header's `alg` and decode the
claims. -/
def verifyAndDecodeToken (env : AasEnv) (jkus : Option (List String)) :
    Except PyExc Claims × List String :=
  match env.header with
  | Except.error e => (Except.error e, [])
  | Except.ok hdr =>
    match getKeyByHeader env hdr jkus with
    | (Except.error e, fs) => (Except.error e, fs)
    | (Except.ok key, fs) =>
      match dictLookup hdr "alg" with
      | none => (Except.error (PyExc.keyError "alg"), fs)
      | some alg => (env.decode key alg, fs)

/-- The hex digest the validator computes (lines 60-72):
`hashlib.sha256(json.dumps(runtime_data, separators=(",", ":")).encode()).hexdigest()`
for `runtime_data = {"publicKey": b64(public_key), "nonce": b64(nonce)}`. -/
def runtimeDataJsonHashHex (env : AasEnv) (public_key nonce : List Nat) : String :=
  env.sha256hex (jsonDumpsRuntimeData (b64encodeStr public_key) (b64encodeStr nonce))

/-- `"k" in token and token[k] == s` — the source writes the negation
`"k" not in token or token[k] != s` as the failure condition
(lines 96-106). -/
def claimEqStr (token : Claims) (k s : String) : Bool :=
  match dictLookup token k with
  | some v => v.eqStr s
  | none => false

/-- `"k" in token and not token[k]` — the source fails on
`"k" not in token or token[k]` (lines 108-112). -/
def claimPresentFalsy (token : Claims) (k : String) : Bool :=
  match dictLookup token k with
  | some v => !v.truthy
  | none => false

/-- `base64.b64decode(v)` applied to a decoded JSON value: only a string
is acceptable input, anything else raises `TypeError` (lines 121, 127). -/
def pyB64decode (env : AasEnv) (v : JsonValue) : Except PyExc (List Nat) :=
  match v with
  | JsonValue.str s => env.b64decode s
  | _ => Except.error PyExc.typeError

/-- `AzAasAciValidator.validate`, lines 96-144: the checks that follow
the report-data check — platform attributes, the `x-ms-runtime` echo of
nonce and public key, and the policy (`hostdata`) binding.  A claim
value of an unexpected JSON type raises `TypeError` where the Python
operation on it would. -/
def validateRest (policies : Option (List String)) (env : AasEnv)
    (public_key nonce : List Nat) (token : Claims) : Except PyExc Bool :=
  if claimEqStr token "x-ms-attestation-type" "sevsnpvm" = false then
    Except.ok false
  else if claimEqStr token "x-ms-compliance-status" "azure-compliant-uvm" = false then
    Except.ok false
  else if claimPresentFalsy token "x-ms-sevsnpvm-is-debuggable" = false then
    Except.ok false
  else
    match dictLookup token "x-ms-runtime" with
    | none => Except.ok false
    | some (JsonValue.obj rt) =>
      match dictLookup rt "nonce" with
      | none => Except.ok false
      | some nv =>
        match pyB64decode env nv with
        | Except.error e => Except.error e
        | Except.ok ns =>
          if ns ≠ nonce then Except.ok false
          else
            match dictLookup rt "publicKey" with
            | none => Except.ok false
            | some pv =>
              match pyB64decode env pv with
              | Except.error e => Except.error e
              | Except.ok ps =>
                if ps ≠ public_key then Except.ok false
                else
                  match policies with
                  | none => Except.ok true
                  | some pols =>
                    match dictLookup token "x-ms-sevsnpvm-hostdata" with
                    | none => Except.ok false
                    | some hd =>
                      Except.ok (pols.any fun p => hd.eqStr (env.sha256hex p))
    | some _ => Except.error PyExc.typeError

/-- `AzAasAciValidator.validate`, lines 87-144, from the decoded claim
set on: the report-data binding (the computed runtime-data hash must
equal the first 64 characters of `x-ms-sevsnpvm-reportdata`; the rest of
the claim is dropped by the `[:64]` slice), then `validateRest`. -/
def validateToken (policies : Option (List String)) (env : AasEnv)
    (public_key nonce : List Nat) (token : Claims) : Except PyExc Bool :=
  match dictLookup token "x-ms-sevsnpvm-reportdata" with
  | none => Except.ok false
  | some (JsonValue.str rd) =>
    if runtimeDataJsonHashHex env public_key nonce ≠ rd.take 64 then
      Except.ok false
    else validateRest policies env public_key nonce token
  | some _ => Except.error PyExc.typeError

/-- `AzAasAciValidator.validate(document, public_key, nonce)`
(lines 49-144).  The try/except catches exactly `jwt.PyJWTError`
(line 55) and turns it into `False`; any other exception propagates.
Second component: the JWKS URLs fetched. -/
def AzAasAciValidator_validate (self : AciValidatorState) (env : AasEnv)
    (public_key nonce : List Nat) : Except PyExc Bool × List String :=
  match verifyAndDecodeToken env self.jkus with
  | (Except.error PyExc.pyJWTError, fs) => (Except.ok false, fs)
  | (Except.error e, fs) => (Except.error e, fs)
  | (Except.ok token, fs) => (validateToken self.policies env public_key nonce token, fs)

/-! ### The two TLS contexts and their verify callbacks -/

/-- One X.509 extension of the peer certificate: its OID (an
`ObjectIdentifier`, modelled by its dotted string) and, when the parsed
extension value object carries a raw `value` payload, those bytes
(`none` models a value object without a `.value` attribute, which
`hasattr(extension.value, "value")` reports and unguarded
`ext.value.value` access turns into an `AttributeError`). -/
structure CertExtension where
  oid : String
  value : Option (List Nat)

/-- The two attributes of the peer certificate the callbacks read: the
extension list (in certificate order) and the DER-encoded
SubjectPublicKeyInfo. -/
structure PeerCert where
  extensions : List CertExtension
  spki : List Nat

/-- A validator as the `atls` context sees it: `accepts(oid)` and
`validate(document, public_key, nonce)` (which may raise). -/
structure AtlsValidator where
  accepts : String → Bool
  validate : List Nat → List Nat → List Nat → Except PyExc Bool

/-- A validator as the `pyatls` context sees it: `get_identifier()` and
`validate(document, public_key, nonce)` (which may raise). -/
structure PyatlsValidator where
  identifier : String
  validate : List Nat → List Nat → List Nat → Except PyExc Bool

/-- The inner loop of `ATLSContext._verify_certificate`
(atls/atls_context.py lines 74-87): walk the certificate's extensions;
on an accepted OID whose value has a payload, call `validate` — `True`
returns from the whole callback, an exception propagates (there is no
try/except around this call), `False` moves on to the next extension.
`Except.ok false` here means "inner loop exhausted, continue with the
next validator". -/
def atlsTryExtensions (v : AtlsValidator) (spki nonce : List Nat) :
    List CertExtension → Except PyExc Bool
  | [] => Except.ok false
  | e :: rest =>
    if v.accepts e.oid then
      match e.value with
      | none => atlsTryExtensions v spki nonce rest
      | some doc =>
        match v.validate doc spki nonce with
        | Except.error ex => Except.error ex
        | Except.ok true => Except.ok true
        | Except.ok false => atlsTryExtensions v spki nonce rest
    else atlsTryExtensions v spki nonce rest

/-- `ATLSContext._verify_certificate` (atls/atls_context.py lines
61-89): validators in caller order, each over all extensions; `True`
anywhere accepts, an uncaught exception from `validate` aborts the
whole callback, and only `return False` at the end rejects. -/
def ATLSContext_verify_certificate (validators : List AtlsValidator)
    (nonce : List Nat) (cert : PeerCert) : Except PyExc Bool :=
  match validators with
  | [] => Except.ok false
  | v :: rest =>
    match atlsTryExtensions v cert.spki nonce cert.extensions with
    | Except.ok true => Except.ok true
    | Except.ok false => ATLSContext_verify_certificate rest nonce cert
    | Except.error e => Except.error e

/-- `AttestedTLSContext._verify_certificate`
(pyatls/attested_tls_context.py lines 62-96): for each validator, look
up the extension carrying its OID (`get_extension_for_oid`; not found
continues with the next validator); read `ext.value.value` outside any
try (`AttributeError` propagates); then
`try: return validator.validate(...) except Exception: continue` — the
result of `validate`, `True` or `False`, is returned directly, while an
exception moves on to the next validator. -/
def AttestedTLSContext_verify_certificate (validators : List PyatlsValidator)
    (nonce : List Nat) (cert : PeerCert) : Except PyExc Bool :=
  match validators with
  | [] => Except.ok false
  | v :: rest =>
    match cert.extensions.find? (fun e => e.oid == v.identifier) with
    | none => AttestedTLSContext_verify_certificate rest nonce cert
    | some ext =>
      match ext.value with
      | none => Except.error PyExc.attributeError
      | some doc =>
        match v.validate doc cert.spki nonce with
        | Except.ok b => Except.ok b
        | Except.error _ => AttestedTLSContext_verify_certificate rest nonce cert

/-- The state an `ATLSContext.__init__` leaves behind:
`self._validators` and `self._nonce`. -/
structure ATLSContextState where
  validators : List AtlsValidator
  nonce : List Nat

/-- The state an `AttestedTLSContext.__init__` leaves behind. -/
structure AttestedTLSContextState where
  validators : List PyatlsValidator
  nonce : List Nat

/-- `ATLSContext.__init__(validators, nonce)` (atls/atls_context.py
lines 45-59).  `rng` is the value `secrets.token_bytes(32)` would
return; the second component records whether that CSPRNG call was made.
The length check on `validators` runs first and raises `ValueError`
before any nonce generation; the constructor performs no network I/O on
any path (it only configures the TLS context object in memory).  No
check of any kind is made on a caller-supplied nonce. -/
def ATLSContext_init (validators : List AtlsValidator)
    (nonce : Option (List Nat)) (rng : List Nat) :
    Except PyExc ATLSContextState × Bool :=
  if validators.length = 0 then
    (Except.error (PyExc.valueError "At least one validator is necessary"), false)
  else
    match nonce with
    | none => (Except.ok { validators := validators, nonce := rng }, true)
    | some n => (Except.ok { validators := validators, nonce := n }, false)

/-- `AttestedTLSContext.__init__(validators, nonce)`
(pyatls/attested_tls_context.py lines 46-60); body identical to
`ATLSContext.__init__` line for line. -/
def AttestedTLSContext_init (validators : List PyatlsValidator)
    (nonce : Option (List Nat)) (rng : List Nat) :
    Except PyExc AttestedTLSContextState × Bool :=
  if validators.length = 0 then
    (Except.error (PyExc.valueError "At least one validator is necessary"), false)
  else
    match nonce with
    | none => (Except.ok { validators := validators, nonce := rng }, true)
    | some n => (Except.ok { validators := validators, nonce := n }, false)

/-! ### Derived predicates and concrete sample data for witnesses -/

deriving instance DecidableEq for Except

/-- The policy step of `validate` (lines 131-144) as a predicate on the
claim set: vacuous without a configured allow-list; otherwise the
`x-ms-sevsnpvm-hostdata` claim must be present and equal (as a string)
to the hex SHA-256 of some allowed policy. -/
def policyOk (policies : Option (List String)) (env : AasEnv) (token : Claims) : Prop :=
  match policies with
  | none => True
  | some pols =>
    ∃ hd, dictLookup token "x-ms-sevsnpvm-hostdata" = some hd ∧
      (pols.any fun p => hd.eqStr (env.sha256hex p)) = true

/-- A 64-character stand-in hex digest used by the sample environment's
constant hash function. -/
def hashConst : String := String.mk (List.replicate 64 'a')

/-- A 128-character sample `x-ms-sevsnpvm-reportdata` value: the sample
digest followed by 64 characters of zero padding. -/
def rdGood : String := String.mk (List.replicate 64 'a' ++ List.replicate 64 '0')

/-- `rdGood` with a different second half (same 64-character front). -/
def rdGood2 : String := String.mk (List.replicate 64 'a' ++ List.replicate 64 '1')

/-- A claim set that satisfies every check of `validate` against
`sampleEnv`, `public_key = [2]`, `nonce = [1]`. -/
def sampleToken : Claims :=
  [("x-ms-sevsnpvm-reportdata", JsonValue.str rdGood),
   ("x-ms-attestation-type", JsonValue.str "sevsnpvm"),
   ("x-ms-compliance-status", JsonValue.str "azure-compliant-uvm"),
   ("x-ms-sevsnpvm-is-debuggable", JsonValue.bool false),
   ("x-ms-runtime", JsonValue.obj
      [("nonce", JsonValue.str "n64"), ("publicKey", JsonValue.str "p64")]),
   ("x-ms-sevsnpvm-hostdata", JsonValue.str hashConst)]

/-- A concrete environment under which `sampleToken` passes every check
for `public_key = [2]` and `nonce = [1]`. -/
def sampleEnv : AasEnv :=
  { header := Except.ok
      [("jku", "https://good.example/keys"), ("kid", "k1"), ("alg", "RS256")],
    fetchData := fun _ => [{ kid := "k1", x5c := ["c1"] }],
    loadKey := fun _ => Except.ok { keyId := 0 },
    decode := fun _ _ => Except.ok sampleToken,
    b64decode := fun s =>
      if s = "n64" then Except.ok [1]
      else if s = "p64" then Except.ok [2]
      else Except.error (PyExc.valueError "Invalid base64-encoded string"),
    sha256hex := fun _ => hashConst }

/-- `sampleEnv` with a document whose unverified header names a JKU that
is not on the sample allow-list. -/
def evilJkuEnv : AasEnv :=
  { sampleEnv with
    header :=
      Except.ok [("jku", "https://evil.example"), ("kid", "k1"), ("alg", "RS256")] }

/-- `sampleToken` with the `x-ms-runtime` claim present but bound to a
JSON number instead of an object. -/
def typeConfusedToken : Claims :=
  setClaim sampleToken "x-ms-runtime" (JsonValue.num 5)

/-- `sampleEnv` decoding to `typeConfusedToken`. -/
def typeConfusedEnv : AasEnv :=
  { sampleEnv with decode := fun _ _ => Except.ok typeConfusedToken }

/-- An `atls` validator that accepts every OID and returns `False` for
every document. -/
def atlsFalseV : AtlsValidator :=
  { accepts := fun _ => true, validate := fun _ _ _ => Except.ok false }

/-- An `atls` validator that accepts every OID and returns `True` for
every document. -/
def atlsTrueV : AtlsValidator :=
  { accepts := fun _ => true, validate := fun _ _ _ => Except.ok true }

/-- An `atls` validator whose `validate` raises. -/
def atlsRaiseV : AtlsValidator :=
  { accepts := fun _ => true,
    validate := fun _ _ _ => Except.error (PyExc.valueError "boom") }

/-- A `pyatls` validator for the ACI OID that returns `False`. -/
def pyFalseV : PyatlsValidator :=
  { identifier := "1.3.9999.2.1.2", validate := fun _ _ _ => Except.ok false }

/-- A `pyatls` validator for the ACI OID that returns `True`. -/
def pyTrueV : PyatlsValidator :=
  { identifier := "1.3.9999.2.1.2", validate := fun _ _ _ => Except.ok true }

/-- A `pyatls` validator for the ACI OID whose `validate` raises. -/
def pyRaiseV : PyatlsValidator :=
  { identifier := "1.3.9999.2.1.2",
    validate := fun _ _ _ => Except.error PyExc.typeError }

/-- A peer certificate with one extension carrying the ACI OID and a
one-byte document payload. -/
def sampleCert : PeerCert :=
  { extensions := [{ oid := "1.3.9999.2.1.2", value := some [7] }], spki := [9] }

/-! ## Helper lemmas -/

set_option maxRecDepth 8000

theorem dictLookup_setClaim_self {α : Type} (t : List (String × α)) (k : String)
    (v w : α) (h : dictLookup t k = some w) :
    dictLookup (setClaim t k v) k = some v := by
  induction t with
  | nil => simp [dictLookup] at h
  | cons p rest ih =>
    obtain ⟨k1, w1⟩ := p
    by_cases hk : k1 = k
    · subst hk
      simp [setClaim, dictLookup]
    · simp [setClaim, dictLookup, hk] at h ⊢
      exact ih h

theorem dictLookup_setClaim_ne {α : Type} (t : List (String × α)) (k k2 : String)
    (v : α) (h : ¬(k2 = k)) :
    dictLookup (setClaim t k v) k2 = dictLookup t k2 := by
  induction t with
  | nil => rfl
  | cons p rest ih =>
    obtain ⟨k1, w1⟩ := p
    by_cases hk : k1 = k
    · subst hk
      have hne : ¬(k1 = k2) := fun hh => h (hh ▸ rfl)
      simp [setClaim, dictLookup, hne]
    · by_cases h12 : k1 = k2
      · subst h12
        simp [setClaim, dictLookup, hk]
      · simp [setClaim, dictLookup, hk, h12, ih]

theorem charAt_mem_or_default (l : List Char) (n : Nat) :
    charAt l n ∈ l ∨ charAt l n = 'A' := by
  induction l generalizing n with
  | nil => right; rfl
  | cons c rest ih =>
    cases n with
    | zero => left; exact List.mem_cons_self _ _
    | succ m =>
      rcases ih m with h | h
      · left; exact List.mem_cons_of_mem _ h
      · right; exact h

theorem jsonEscapeChar_b64alpha : ∀ c ∈ b64alphabet, jsonEscapeChar c = [c] := by
  decide

theorem jsonEscapeChar_b64char (n : Nat) : jsonEscapeChar (b64char n) = [b64char n] := by
  unfold b64char
  rcases charAt_mem_or_default b64alphabet n with h | h
  · exact jsonEscapeChar_b64alpha _ h
  · rw [h]; decide

theorem jsonEscapeChar_pad : jsonEscapeChar '=' = ['='] := by decide

theorem jsonEscapeList_b64 : (bs : List Nat) →
    jsonEscapeList (b64encodeGroups bs) = b64encodeGroups bs
  | [] => rfl
  | [a] => by
      simp [b64encodeGroups, jsonEscapeList, jsonEscapeChar_b64char, jsonEscapeChar_pad]
  | [a, b] => by
      simp [b64encodeGroups, jsonEscapeList, jsonEscapeChar_b64char, jsonEscapeChar_pad]
  | a :: b :: c :: rest => by
      simp [b64encodeGroups, jsonEscapeList, jsonEscapeChar_b64char, jsonEscapeChar_pad,
            jsonEscapeList_b64 rest]

theorem jsonEscapeString_b64 (bs : List Nat) :
    jsonEscapeString (b64encodeStr bs) = b64encodeStr bs := by
  unfold jsonEscapeString b64encodeStr
  rw [show (String.mk (b64encodeGroups bs)).toList = b64encodeGroups bs from rfl,
      jsonEscapeList_b64]

theorem runtimeDataJsonHashHex_eq (env : AasEnv) (pk n : List Nat) :
    runtimeDataJsonHashHex env pk n =
      env.sha256hex ("\x7b\"publicKey\":\"" ++ b64encodeStr pk ++ "\",\"nonce\":\"" ++
        b64encodeStr n ++ "\"\x7d") := by
  unfold runtimeDataJsonHashHex jsonDumpsRuntimeData
  rw [jsonEscapeString_b64, jsonEscapeString_b64]

theorem claimEqStr_eq_true_iff (t : Claims) (k s : String) :
    claimEqStr t k s = true ↔ ∃ v, dictLookup t k = some v ∧ v.eqStr s = true := by
  unfold claimEqStr
  cases h : dictLookup t k with
  | none => simp
  | some v => simp

theorem claimPresentFalsy_eq_true_iff (t : Claims) (k : String) :
    claimPresentFalsy t k = true ↔ ∃ v, dictLookup t k = some v ∧ v.truthy = false := by
  unfold claimPresentFalsy
  cases h : dictLookup t k with
  | none => simp
  | some v => simp

theorem validateRest_eq_ok_true_iff (policies : Option (List String)) (env : AasEnv)
    (pk n : List Nat) (t : Claims) :
    validateRest policies env pk n t = Except.ok true ↔
      (claimEqStr t "x-ms-attestation-type" "sevsnpvm" = true ∧
       claimEqStr t "x-ms-compliance-status" "azure-compliant-uvm" = true ∧
       claimPresentFalsy t "x-ms-sevsnpvm-is-debuggable" = true ∧
       ∃ rt, dictLookup t "x-ms-runtime" = some (JsonValue.obj rt) ∧
         ∃ nv, dictLookup rt "nonce" = some nv ∧ pyB64decode env nv = Except.ok n ∧
           ∃ pv, dictLookup rt "publicKey" = some pv ∧ pyB64decode env pv = Except.ok pk ∧
             policyOk policies env t) := by
  cases h1 : claimEqStr t "x-ms-attestation-type" "sevsnpvm" with
  | false => simp [validateRest, h1]
  | true =>
  cases h2 : claimEqStr t "x-ms-compliance-status" "azure-compliant-uvm" with
  | false => simp [validateRest, h1, h2]
  | true =>
  cases h3 : claimPresentFalsy t "x-ms-sevsnpvm-is-debuggable" with
  | false => simp [validateRest, h1, h2, h3]
  | true =>
  cases h4 : dictLookup t "x-ms-runtime" with
  | none => simp [validateRest, h1, h2, h3, h4]
  | some v =>
  cases v with
  | str s => simp [validateRest, h1, h2, h3, h4]
  | bool b => simp [validateRest, h1, h2, h3, h4]
  | num m => simp [validateRest, h1, h2, h3, h4]
  | null => simp [validateRest, h1, h2, h3, h4]
  | arr l => simp [validateRest, h1, h2, h3, h4]
  | obj rt =>
  cases h5 : dictLookup rt "nonce" with
  | none => simp [validateRest, h1, h2, h3, h4, h5]
  | some nv =>
  cases h6 : pyB64decode env nv with
  | error e => simp [validateRest, h1, h2, h3, h4, h5, h6]
  | ok ns =>
  by_cases h7 : ns = n
  case neg => simp [validateRest, h1, h2, h3, h4, h5, h6, h7]
  case pos =>
  subst h7
  cases h8 : dictLookup rt "publicKey" with
  | none => simp [validateRest, h1, h2, h3, h4, h5, h6, h8]
  | some pv =>
  cases h9 : pyB64decode env pv with
  | error e => simp [validateRest, h1, h2, h3, h4, h5, h6, h8, h9]
  | ok ps =>
  by_cases h10 : ps = pk
  case neg => simp [validateRest, h1, h2, h3, h4, h5, h6, h8, h9, h10]
  case pos =>
  subst h10
  cases policies with
  | none => simp [validateRest, policyOk, h1, h2, h3, h4, h5, h6, h8, h9]
  | some pols =>
  cases h11 : dictLookup t "x-ms-sevsnpvm-hostdata" with
  | none => simp [validateRest, policyOk, h1, h2, h3, h4, h5, h6, h8, h9, h11]
  | some hd => simp [validateRest, policyOk, h1, h2, h3, h4, h5, h6, h8, h9, h11]

theorem validateToken_eq_ok_true_iff (policies : Option (List String)) (env : AasEnv)
    (pk n : List Nat) (t : Claims) :
    validateToken policies env pk n t = Except.ok true ↔
      ∃ rd, dictLookup t "x-ms-sevsnpvm-reportdata" = some (JsonValue.str rd) ∧
        runtimeDataJsonHashHex env pk n = rd.take 64 ∧
        validateRest policies env pk n t = Except.ok true := by
  cases h : dictLookup t "x-ms-sevsnpvm-reportdata" with
  | none => simp [validateToken, h]
  | some v =>
  cases v with
  | str rd =>
    by_cases hh : runtimeDataJsonHashHex env pk n = rd.take 64
    · simp [validateToken, h, hh]
    · simp [validateToken, h, hh]
  | bool b => simp [validateToken, h]
  | num m => simp [validateToken, h]
  | null => simp [validateToken, h]
  | arr l => simp [validateToken, h]
  | obj o => simp [validateToken, h]

theorem validateRest_congr (policies : Option (List String)) (env : AasEnv)
    (pk n : List Nat) (t1 t2 : Claims)
    (h : ∀ k, ¬(k = "x-ms-sevsnpvm-reportdata") → dictLookup t1 k = dictLookup t2 k) :
    validateRest policies env pk n t1 = validateRest policies env pk n t2 := by
  unfold validateRest claimEqStr claimPresentFalsy
  rw [h "x-ms-attestation-type" (by decide), h "x-ms-compliance-status" (by decide),
      h "x-ms-sevsnpvm-is-debuggable" (by decide), h "x-ms-runtime" (by decide),
      h "x-ms-sevsnpvm-hostdata" (by decide)]

/-! ## Claim theorems -/

/-- C4: the 64-character hex value `validate` computes and requires as
the first 64 characters of `x-ms-sevsnpvm-reportdata` is the abstract
SHA-256 hex digest of exactly the byte string
`\x7b"publicKey":"<b64(spki)>","nonce":"<b64(nonce)>"\x7d` (compact
JSON, key order publicKey then nonce, no whitespace, no escaping);
the claim's characters beyond the first 64 are not examined; and
`validate` returns `False` when the claim is absent or its 64-character
front differs from the computed hash. -/
theorem reportdata_binding_round_trip (policies : Option (List String))
    (env : AasEnv) (pk n : List Nat) (t : Claims) :
    (runtimeDataJsonHashHex env pk n =
       env.sha256hex ("\x7b\"publicKey\":\"" ++ b64encodeStr pk ++ "\",\"nonce\":\"" ++
         b64encodeStr n ++ "\"\x7d")) ∧
    (dictLookup t "x-ms-sevsnpvm-reportdata" = none →
       validateToken policies env pk n t = Except.ok false) ∧
    (∀ rd, dictLookup t "x-ms-sevsnpvm-reportdata" = some (JsonValue.str rd) →
       runtimeDataJsonHashHex env pk n ≠ rd.take 64 →
       validateToken policies env pk n t = Except.ok false) ∧
    (∀ rd rd2, dictLookup t "x-ms-sevsnpvm-reportdata" = some (JsonValue.str rd) →
       rd.take 64 = rd2.take 64 →
       validateToken policies env pk n
           (setClaim t "x-ms-sevsnpvm-reportdata" (JsonValue.str rd2)) =
         validateToken policies env pk n t) := by
  refine ⟨runtimeDataJsonHashHex_eq env pk n, ?_, ?_, ?_⟩
  · intro h
    simp [validateToken, h]
  · intro rd hrd hne
    simp [validateToken, hrd, hne]
  · intro rd rd2 hrd htake
    have hl := dictLookup_setClaim_self t "x-ms-sevsnpvm-reportdata" (JsonValue.str rd2) _ hrd
    have hcongr := validateRest_congr policies env pk n
      (setClaim t "x-ms-sevsnpvm-reportdata" (JsonValue.str rd2)) t
      (fun k hk => dictLookup_setClaim_ne t "x-ms-sevsnpvm-reportdata" k (JsonValue.str rd2) hk)
    simp only [validateToken, hl, hrd, htake, hcongr]

/-- C4 witness: the four parts of `reportdata_binding_round_trip`
evaluated at concrete inputs (a missing claim, a mismatching claim, and
two claim values agreeing on their 64-character front). -/
theorem reportdata_binding_round_trip_witness :
    runtimeDataJsonHashHex sampleEnv [2] [1] =
      sampleEnv.sha256hex ("\x7b\"publicKey\":\"" ++ b64encodeStr [2] ++ "\",\"nonce\":\"" ++
        b64encodeStr [1] ++ "\"\x7d") ∧
    validateToken none sampleEnv [2] [1] [] = Except.ok false ∧
    validateToken none sampleEnv [2] [1]
      [("x-ms-sevsnpvm-reportdata", JsonValue.str "zzz")] = Except.ok false ∧
    validateToken none sampleEnv [2] [1]
        (setClaim sampleToken "x-ms-sevsnpvm-reportdata" (JsonValue.str rdGood2)) =
      validateToken none sampleEnv [2] [1] sampleToken :=
  ⟨(reportdata_binding_round_trip none sampleEnv [2] [1] sampleToken).1,
   (reportdata_binding_round_trip none sampleEnv [2] [1] []).2.1 rfl,
   (reportdata_binding_round_trip none sampleEnv [2] [1]
      [("x-ms-sevsnpvm-reportdata", JsonValue.str "zzz")]).2.2.1 "zzz" rfl (by decide),
   (reportdata_binding_round_trip none sampleEnv [2] [1] sampleToken).2.2.2
      rdGood rdGood2 rfl (by decide)⟩

/-- C5 (amended): `validate` accepts only if `x-ms-attestation-type`
equals "sevsnpvm", `x-ms-compliance-status` equals
"azure-compliant-uvm", `x-ms-sevsnpvm-is-debuggable` is present and
falsy, and the `x-ms-runtime` object's base64-decoded `nonce` and
`publicKey` equal the provided nonce and spki bytes.  (When a condition
fails, `validate` does not return `True`; it returns `False` for absent
or wrong-value claims of the expected type, but a present claim of an
unexpected JSON type makes it raise instead of returning `False` — see
the counterexample.) -/
theorem validate_acceptance_necessary_conditions (policies : Option (List String))
    (env : AasEnv) (pk n : List Nat) (t : Claims)
    (h : validateToken policies env pk n t = Except.ok true) :
    (∃ v, dictLookup t "x-ms-attestation-type" = some v ∧ v.eqStr "sevsnpvm" = true) ∧
    (∃ v, dictLookup t "x-ms-compliance-status" = some v ∧
       v.eqStr "azure-compliant-uvm" = true) ∧
    (∃ v, dictLookup t "x-ms-sevsnpvm-is-debuggable" = some v ∧ v.truthy = false) ∧
    ∃ rt, dictLookup t "x-ms-runtime" = some (JsonValue.obj rt) ∧
      (∃ nv, dictLookup rt "nonce" = some nv ∧ pyB64decode env nv = Except.ok n) ∧
      (∃ pv, dictLookup rt "publicKey" = some pv ∧ pyB64decode env pv = Except.ok pk) := by
  obtain ⟨rd, hrd, hh, hrest⟩ := (validateToken_eq_ok_true_iff _ _ _ _ _).mp h
  obtain ⟨h1, h2, h3, rt, h4, nv, h5, h6, pv, h7, h8, _⟩ :=
    (validateRest_eq_ok_true_iff _ _ _ _ _).mp hrest
  exact ⟨(claimEqStr_eq_true_iff _ _ _).mp h1, (claimEqStr_eq_true_iff _ _ _).mp h2,
    (claimPresentFalsy_eq_true_iff _ _).mp h3, rt, h4, ⟨nv, h5, h6⟩, ⟨pv, h7, h8⟩⟩

/-- C5 witness: the necessary conditions extracted from a concrete
accepting run. -/
theorem validate_acceptance_necessary_conditions_witness :
    (∃ v, dictLookup sampleToken "x-ms-attestation-type" = some v ∧
       v.eqStr "sevsnpvm" = true) ∧
    (∃ v, dictLookup sampleToken "x-ms-compliance-status" = some v ∧
       v.eqStr "azure-compliant-uvm" = true) ∧
    (∃ v, dictLookup sampleToken "x-ms-sevsnpvm-is-debuggable" = some v ∧
       v.truthy = false) ∧
    ∃ rt, dictLookup sampleToken "x-ms-runtime" = some (JsonValue.obj rt) ∧
      (∃ nv, dictLookup rt "nonce" = some nv ∧
         pyB64decode sampleEnv nv = Except.ok [1]) ∧
      (∃ pv, dictLookup rt "publicKey" = some pv ∧
         pyB64decode sampleEnv pv = Except.ok [2]) :=
  validate_acceptance_necessary_conditions none sampleEnv [2] [1] sampleToken (by decide)

/-- C5 counterexample: with every other claim acceptable but
`x-ms-runtime` bound to the JSON number 5 (a claim that is present but
"has a different value"), `validate` raises `TypeError` instead of
returning `False`, refuting the claim that it returns `False` whenever
one of the listed claims is absent or different. -/
theorem validate_runtime_type_confusion_counterexample :
    (AzAasAciValidator_validate { policies := none, jkus := none }
        typeConfusedEnv [2] [1]).1 = Except.error PyExc.typeError ∧
    (AzAasAciValidator_validate { policies := none, jkus := none }
        typeConfusedEnv [2] [1]).1 ≠ Except.ok false := by
  exact ⟨by decide, by decide⟩

/-- C6: for a claim set that passes all checks before the policy step,
`validate` with no policy allow-list returns `True` (the step is
skipped), and with a configured allow-list returns `True` iff
`x-ms-sevsnpvm-hostdata` is present and equals (as a string) the hex
SHA-256 of at least one allowed policy string. -/
theorem validate_policy_binding (env : AasEnv) (pk n : List Nat) (t : Claims)
    (rd : String) (rt : List (String × JsonValue)) (nv pv : JsonValue)
    (h1 : dictLookup t "x-ms-sevsnpvm-reportdata" = some (JsonValue.str rd))
    (h2 : runtimeDataJsonHashHex env pk n = rd.take 64)
    (h3 : claimEqStr t "x-ms-attestation-type" "sevsnpvm" = true)
    (h4 : claimEqStr t "x-ms-compliance-status" "azure-compliant-uvm" = true)
    (h5 : claimPresentFalsy t "x-ms-sevsnpvm-is-debuggable" = true)
    (h6 : dictLookup t "x-ms-runtime" = some (JsonValue.obj rt))
    (h7 : dictLookup rt "nonce" = some nv)
    (h8 : pyB64decode env nv = Except.ok n)
    (h9 : dictLookup rt "publicKey" = some pv)
    (h10 : pyB64decode env pv = Except.ok pk) :
    validateToken none env pk n t = Except.ok true ∧
    ∀ pols, (validateToken (some pols) env pk n t = Except.ok true ↔
      ∃ hd, dictLookup t "x-ms-sevsnpvm-hostdata" = some hd ∧
        ∃ p, p ∈ pols ∧ hd.eqStr (env.sha256hex p) = true) := by
  constructor
  · rw [validateToken_eq_ok_true_iff]
    exact ⟨rd, h1, h2, (validateRest_eq_ok_true_iff _ _ _ _ _).mpr
      ⟨h3, h4, h5, rt, h6, nv, h7, h8, pv, h9, h10, trivial⟩⟩
  · intro pols
    constructor
    · intro h
      obtain ⟨rd2, hrd2, hh2, hrest⟩ := (validateToken_eq_ok_true_iff _ _ _ _ _).mp h
      obtain ⟨_, _, _, rt2, hrt2, nv2, hnv2, _, pv2, hpv2, _, hpol⟩ :=
        (validateRest_eq_ok_true_iff _ _ _ _ _).mp hrest
      obtain ⟨hd, hhd, hany⟩ := hpol
      obtain ⟨p, hp, hps⟩ := List.any_eq_true.mp hany
      exact ⟨hd, hhd, p, hp, hps⟩
    · rintro ⟨hd, hhd, p, hp, hps⟩
      rw [validateToken_eq_ok_true_iff]
      exact ⟨rd, h1, h2, (validateRest_eq_ok_true_iff _ _ _ _ _).mpr
        ⟨h3, h4, h5, rt, h6, nv, h7, h8, pv, h9, h10,
         hd, hhd, List.any_eq_true.mpr ⟨p, hp, hps⟩⟩⟩

/-- C6 witness: a concrete passing claim set with no allow-list, with a
matching one-element allow-list, and the hostdata equation extracted. -/
theorem validate_policy_binding_witness :
    validateToken none sampleEnv [2] [1] sampleToken = Except.ok true ∧
    (validateToken (some ["pol"]) sampleEnv [2] [1] sampleToken = Except.ok true ↔
      ∃ hd, dictLookup sampleToken "x-ms-sevsnpvm-hostdata" = some hd ∧
        ∃ p, p ∈ ["pol"] ∧ hd.eqStr (sampleEnv.sha256hex p) = true) :=
  have h := validate_policy_binding sampleEnv [2] [1] sampleToken rdGood
    [("nonce", JsonValue.str "n64"), ("publicKey", JsonValue.str "p64")]
    (JsonValue.str "n64") (JsonValue.str "p64")
    rfl (by decide) rfl rfl rfl rfl rfl rfl rfl rfl
  ⟨h.1, h.2 ["pol"]⟩

/-- C10: a policy allow-list that is the empty list (as opposed to
`None`) makes `validate` reject everything: a claim set that passes the
signature, report-data, platform-attribute and runtime checks still
yields `False` (the empty allow-list matches no hostdata value), and no
environment whatsoever can make `validate` return `True`. -/
theorem validate_empty_policy_list_rejects_all (env : AasEnv)
    (jkus : Option (List String)) (pk n : List Nat) (t : Claims)
    (rd : String) (rt : List (String × JsonValue)) (nv pv : JsonValue)
    (h1 : dictLookup t "x-ms-sevsnpvm-reportdata" = some (JsonValue.str rd))
    (h2 : runtimeDataJsonHashHex env pk n = rd.take 64)
    (h3 : claimEqStr t "x-ms-attestation-type" "sevsnpvm" = true)
    (h4 : claimEqStr t "x-ms-compliance-status" "azure-compliant-uvm" = true)
    (h5 : claimPresentFalsy t "x-ms-sevsnpvm-is-debuggable" = true)
    (h6 : dictLookup t "x-ms-runtime" = some (JsonValue.obj rt))
    (h7 : dictLookup rt "nonce" = some nv)
    (h8 : pyB64decode env nv = Except.ok n)
    (h9 : dictLookup rt "publicKey" = some pv)
    (h10 : pyB64decode env pv = Except.ok pk) :
    validateToken (some []) env pk n t = Except.ok false ∧
    (AzAasAciValidator_validate { policies := some [], jkus := jkus } env pk n).1
      ≠ Except.ok true := by
  constructor
  · cases hhd : dictLookup t "x-ms-sevsnpvm-hostdata" with
    | none =>
      simp [validateToken, validateRest, h1, h2, h3, h4, h5, h6, h7, h8, h9, h10, hhd]
    | some hd =>
      simp [validateToken, validateRest, h1, h2, h3, h4, h5, h6, h7, h8, h9, h10, hhd]
  · have hvt : ∀ tok, validateToken (some []) env pk n tok ≠ Except.ok true := by
      intro tok htok
      obtain ⟨rd2, _, _, hrest⟩ := (validateToken_eq_ok_true_iff _ _ _ _ _).mp htok
      obtain ⟨_, _, _, rt2, _, nv2, _, _, pv2, _, _, hpol⟩ :=
        (validateRest_eq_ok_true_iff _ _ _ _ _).mp hrest
      obtain ⟨hd, _, hany⟩ := hpol
      simp at hany
    intro hcontra
    unfold AzAasAciValidator_validate at hcontra
    dsimp only at hcontra
    rcases hv : verifyAndDecodeToken env jkus with ⟨r, fs⟩
    rw [hv] at hcontra
    rcases r with e | tok
    · cases e <;> simp at hcontra
    · exact hvt tok hcontra

/-- C10 witness: the empty allow-list rejecting a concrete claim set
that passes every other check. -/
theorem validate_empty_policy_list_rejects_all_witness :
    validateToken (some []) sampleEnv [2] [1] sampleToken = Except.ok false ∧
    (AzAasAciValidator_validate { policies := some [], jkus := none }
        sampleEnv [2] [1]).1 ≠ Except.ok true :=
  validate_empty_policy_list_rejects_all sampleEnv none [2] [1] sampleToken rdGood
    [("nonce", JsonValue.str "n64"), ("publicKey", JsonValue.str "p64")]
    (JsonValue.str "n64") (JsonValue.str "p64")
    rfl (by decide) rfl rfl rfl rfl rfl rfl rfl rfl

/-- C1 (amended): when the validator was constructed with a non-empty
JKU allow-list and the JWT header's `jku` is not a member of it,
`validate` performs no JWKS network fetch (the fetch trace is empty) but
it does not return `False`: the allow-list check raises
`ValueError("Untrusted JKU found in token")`, which is not a
`jwt.PyJWTError` and therefore escapes `validate`'s try/except
(the enclosing `AttestedTLSContext` callback later swallows it). -/
theorem validate_untrusted_jku_raises_before_fetch
    (self : AciValidatorState) (allow : List String) (env : AasEnv)
    (pk n : List Nat) (hdr : List (String × String)) (jku : String)
    (hjkus : self.jkus = some allow) (hnonempty : allow ≠ [])
    (hhdr : env.header = Except.ok hdr)
    (hjku : dictLookup hdr "jku" = some jku)
    (hmem : allow.contains jku = false) :
    AzAasAciValidator_validate self env pk n =
      (Except.error (PyExc.valueError "Untrusted JKU found in token"), []) := by
  have hmem2 : ¬(jku ∈ allow) := by simpa using hmem
  simp [AzAasAciValidator_validate, verifyAndDecodeToken, getKeyByHeader,
        jkuAllowed, hjkus, hhdr, hjku, hmem2]

/-- C1 witness: a concrete document whose header names a JKU outside a
concrete non-empty allow-list; `validate` raises the `ValueError` and
the fetch trace is empty. -/
theorem validate_untrusted_jku_raises_before_fetch_witness :
    AzAasAciValidator_validate
        { policies := none, jkus := some ["https://good.example/keys"] }
        evilJkuEnv [2] [1] =
      (Except.error (PyExc.valueError "Untrusted JKU found in token"), []) :=
  validate_untrusted_jku_raises_before_fetch
    { policies := none, jkus := some ["https://good.example/keys"] }
    ["https://good.example/keys"] evilJkuEnv [2] [1]
    [("jku", "https://evil.example"), ("kid", "k1"), ("alg", "RS256")]
    "https://evil.example" rfl (by decide) rfl rfl (by decide)

/-- C1 counterexample: at a concrete untrusted-JKU input, `validate`
does not return `False` as the claim states — it raises a `ValueError`
(no fetch is performed, as the empty trace shows). -/
theorem validate_untrusted_jku_counterexample :
    AzAasAciValidator_validate
        { policies := none, jkus := some ["https://good.example/keys"] }
        evilJkuEnv [2] [1] =
      (Except.error (PyExc.valueError "Untrusted JKU found in token"), []) ∧
    (AzAasAciValidator_validate
        { policies := none, jkus := some ["https://good.example/keys"] }
        evilJkuEnv [2] [1]).1 ≠ Except.ok false := by
  exact ⟨by decide, by decide⟩

/-- C2 (amended): in `ATLSContext._verify_certificate` a validator all
of whose applicable `validate` calls return `False` is transparent: the
callback's result on `v :: rest` equals its result on `rest`, so a
`False` never by itself terminates the search while untried validators
remain.  (In `AttestedTLSContext._verify_certificate` this fails: the
matched validator's result is returned directly — see the
counterexample.) -/
theorem atls_callback_false_falls_through (v : AtlsValidator)
    (rest : List AtlsValidator) (nonce : List Nat) (cert : PeerCert)
    (h : ∀ e, e ∈ cert.extensions → ∀ doc, e.value = some doc →
         v.accepts e.oid = true → v.validate doc cert.spki nonce = Except.ok false) :
    ATLSContext_verify_certificate (v :: rest) nonce cert =
      ATLSContext_verify_certificate rest nonce cert := by
  have hinner : ∀ (exts : List CertExtension),
      (∀ e, e ∈ exts → ∀ doc, e.value = some doc → v.accepts e.oid = true →
        v.validate doc cert.spki nonce = Except.ok false) →
      atlsTryExtensions v cert.spki nonce exts = Except.ok false := by
    intro exts
    induction exts with
    | nil => intro _; rfl
    | cons e es ih =>
      intro he
      have htail : ∀ e2, e2 ∈ es → ∀ doc, e2.value = some doc →
          v.accepts e2.oid = true → v.validate doc cert.spki nonce = Except.ok false :=
        fun e2 h2 => he e2 (List.mem_cons_of_mem _ h2)
      cases ha : v.accepts e.oid with
      | false => simp [atlsTryExtensions, ha, ih htail]
      | true =>
        cases hv : e.value with
        | none => simp [atlsTryExtensions, ha, hv, ih htail]
        | some doc =>
          have hval := he e (List.mem_cons_self _ _) doc hv ha
          simp [atlsTryExtensions, ha, hv, hval, ih htail]
  simp only [ATLSContext_verify_certificate, hinner cert.extensions h]

/-- C2 witness: prepending an always-false validator does not change a
concrete `atls` callback run (which still accepts via the later
validator). -/
theorem atls_callback_false_falls_through_witness :
    ATLSContext_verify_certificate [atlsFalseV, atlsTrueV] [0] sampleCert =
      ATLSContext_verify_certificate [atlsTrueV] [0] sampleCert :=
  atls_callback_false_falls_through atlsFalseV [atlsTrueV] [0] sampleCert
    (fun _ _ _ _ _ => rfl)

/-- C2 counterexample: in `AttestedTLSContext._verify_certificate` the
first validator matches the extension OID and returns `False`, and the
callback returns REJECT even though the untried second validator would
have returned `True` — refuting the claim that a `False` falls through
to the remaining pairs in this callback. -/
theorem attested_callback_false_short_circuits :
    AttestedTLSContext_verify_certificate [pyFalseV, pyTrueV] [0] sampleCert =
      Except.ok false ∧
    AttestedTLSContext_verify_certificate [pyTrueV] [0] sampleCert =
      Except.ok true ∧
    AttestedTLSContext_verify_certificate [pyFalseV, pyTrueV] [0] sampleCert ≠
      Except.ok true := by
  exact ⟨by decide, by decide, by decide⟩

/-- C3 (amended): in `AttestedTLSContext._verify_certificate` an
exception from a matched validator's `validate` is caught and the
search continues with the remaining validators, exactly as if that pair
had been false.  (In `ATLSContext._verify_certificate` there is no such
handler and the exception aborts the callback — see the
counterexample.) -/
theorem attested_callback_exception_falls_through (v : PyatlsValidator)
    (rest : List PyatlsValidator) (nonce : List Nat) (cert : PeerCert)
    (ext : CertExtension) (doc : List Nat) (ex : PyExc)
    (hfind : cert.extensions.find? (fun e => e.oid == v.identifier) = some ext)
    (hval : ext.value = some doc)
    (hraise : v.validate doc cert.spki nonce = Except.error ex) :
    AttestedTLSContext_verify_certificate (v :: rest) nonce cert =
      AttestedTLSContext_verify_certificate rest nonce cert := by
  simp only [AttestedTLSContext_verify_certificate, hfind, hval, hraise]

/-- C3 witness: a concrete `pyatls` callback run in which the first
validator raises and the callback still accepts via the second. -/
theorem attested_callback_exception_falls_through_witness :
    AttestedTLSContext_verify_certificate [pyRaiseV, pyTrueV] [0] sampleCert =
      AttestedTLSContext_verify_certificate [pyTrueV] [0] sampleCert :=
  attested_callback_exception_falls_through pyRaiseV [pyTrueV] [0] sampleCert
    { oid := "1.3.9999.2.1.2", value := some [7] } [7] PyExc.typeError rfl rfl rfl

/-- C3 counterexample: in `ATLSContext._verify_certificate` an
exception from the first validator's `validate` aborts the whole
callback (the error propagates), even though an untried validator that
would accept remains — refuting the claim that the callback catches it
and continues. -/
theorem atls_callback_exception_aborts :
    ATLSContext_verify_certificate [atlsRaiseV, atlsTrueV] [0] sampleCert =
      Except.error (PyExc.valueError "boom") ∧
    ATLSContext_verify_certificate [atlsRaiseV, atlsTrueV] [0] sampleCert ≠
      Except.ok false ∧
    ATLSContext_verify_certificate [atlsRaiseV, atlsTrueV] [0] sampleCert ≠
      Except.ok true := by
  exact ⟨by decide, by decide, by decide⟩

/-- C7: constructing either context with an empty validator list fails
with `ValueError` (the InvalidArgument kind) before the CSPRNG is
consulted (second component `false`; the constructor performs no
network I/O on any path), and with a non-empty list construction
succeeds, storing the caller's nonce or, absent one, the generated
bytes. -/
theorem context_empty_validator_guard (nonce : Option (List Nat)) (rng : List Nat) :
    ATLSContext_init [] nonce rng =
      (Except.error (PyExc.valueError "At least one validator is necessary"), false) ∧
    AttestedTLSContext_init [] nonce rng =
      (Except.error (PyExc.valueError "At least one validator is necessary"), false) ∧
    (∀ vs : List AtlsValidator, vs ≠ [] →
      (ATLSContext_init vs nonce rng).1 =
        Except.ok { validators := vs, nonce := nonce.getD rng }) ∧
    (∀ vs : List PyatlsValidator, vs ≠ [] →
      (AttestedTLSContext_init vs nonce rng).1 =
        Except.ok { validators := vs, nonce := nonce.getD rng }) := by
  refine ⟨rfl, rfl, ?_, ?_⟩
  · intro vs hvs
    have hlen : ¬(vs.length = 0) := fun h => hvs (List.length_eq_zero.mp h)
    cases nonce <;> simp [ATLSContext_init, hlen]
  · intro vs hvs
    have hlen : ¬(vs.length = 0) := fun h => hvs (List.length_eq_zero.mp h)
    cases nonce <;> simp [AttestedTLSContext_init, hlen]

/-- C7 witness: the guard and the success path at concrete inputs. -/
theorem context_empty_validator_guard_witness :
    ATLSContext_init [] (some [1]) [0] =
      (Except.error (PyExc.valueError "At least one validator is necessary"), false) ∧
    AttestedTLSContext_init [] (some [1]) [0] =
      (Except.error (PyExc.valueError "At least one validator is necessary"), false) ∧
    (ATLSContext_init [atlsTrueV] (some [1]) [0]).1 =
      Except.ok { validators := [atlsTrueV], nonce := [1] } ∧
    (AttestedTLSContext_init [pyTrueV] (some [1]) [0]).1 =
      Except.ok { validators := [pyTrueV], nonce := [1] } :=
  have h := context_empty_validator_guard (some [1]) [0]
  ⟨h.1, h.2.1, h.2.2.1 [atlsTrueV] (List.cons_ne_nil _ _),
   h.2.2.2 [pyTrueV] (List.cons_ne_nil _ _)⟩

/-- C8 (amended): neither constructor performs any nonce-length check:
with a non-empty validator list, construction succeeds for a
caller-supplied nonce of any length and stores it verbatim, and only
the auto-generated path stores the 32 CSPRNG bytes. -/
theorem context_nonce_stored_verbatim (n rng : List Nat) :
    (∀ vs : List AtlsValidator, vs ≠ [] →
      (ATLSContext_init vs (some n) rng).1 =
        Except.ok { validators := vs, nonce := n } ∧
      (ATLSContext_init vs none rng).1 =
        Except.ok { validators := vs, nonce := rng }) ∧
    (∀ vs : List PyatlsValidator, vs ≠ [] →
      (AttestedTLSContext_init vs (some n) rng).1 =
        Except.ok { validators := vs, nonce := n } ∧
      (AttestedTLSContext_init vs none rng).1 =
        Except.ok { validators := vs, nonce := rng }) := by
  constructor
  · intro vs hvs
    have hlen : ¬(vs.length = 0) := fun h => hvs (List.length_eq_zero.mp h)
    exact ⟨by simp [ATLSContext_init, hlen], by simp [ATLSContext_init, hlen]⟩
  · intro vs hvs
    have hlen : ¬(vs.length = 0) := fun h => hvs (List.length_eq_zero.mp h)
    exact ⟨by simp [AttestedTLSContext_init, hlen], by simp [AttestedTLSContext_init, hlen]⟩

/-- C8 witness: a 3-byte caller-supplied nonce is stored verbatim by
both constructors. -/
theorem context_nonce_stored_verbatim_witness :
    (ATLSContext_init [atlsTrueV] (some [1, 2, 3]) (List.replicate 32 0)).1 =
      Except.ok { validators := [atlsTrueV], nonce := [1, 2, 3] } ∧
    (AttestedTLSContext_init [pyTrueV] (some [1, 2, 3]) (List.replicate 32 0)).1 =
      Except.ok { validators := [pyTrueV], nonce := [1, 2, 3] } :=
  ⟨((context_nonce_stored_verbatim [1, 2, 3] (List.replicate 32 0)).1
      [atlsTrueV] (List.cons_ne_nil _ _)).1,
   ((context_nonce_stored_verbatim [1, 2, 3] (List.replicate 32 0)).2
      [pyTrueV] (List.cons_ne_nil _ _)).1⟩

/-- C8 counterexample: construction with a 3-byte nonce succeeds (the
claim says it must fail with InvalidArgument) and the stored nonce is
not 32 bytes long. -/
theorem context_short_nonce_accepted :
    (ATLSContext_init [atlsTrueV] (some [1, 2, 3]) (List.replicate 32 0)).1 =
      Except.ok { validators := [atlsTrueV], nonce := [1, 2, 3] } ∧
    ([1, 2, 3] : List Nat).length ≠ 32 ∧
    (AttestedTLSContext_init [pyTrueV] (some [1, 2, 3]) (List.replicate 32 0)).1 =
      Except.ok { validators := [pyTrueV], nonce := [1, 2, 3] } :=
  ⟨rfl, by decide, rfl⟩

/-- C9 (code bug): `AzAasAciValidator.__init__` emits no warning on any
input — in particular none when either allow-list is absent — although
its own docstring (and the spec) promise a one-time security warning;
the warning trace of the embedded constructor is empty on every path. -/
theorem aci_validator_init_emits_no_warning :
    (AzAasAciValidator_init none none).2 = [] ∧
    (AzAasAciValidator_init none (some ["https://jku.example"])).2 = [] ∧
    (AzAasAciValidator_init (some ["policy"]) none).2 = [] ∧
    (AzAasAciValidator_init (some ["policy"]) (some ["https://jku.example"])).2 = [] ∧
    ∀ (policies jkus : Option (List String)),
      (AzAasAciValidator_init policies jkus).2 = [] :=
  ⟨rfl, rfl, rfl, rfl, fun _ _ => rfl⟩
